import Mathlib

/-!
Shallow embedding of the thread-management core of ChibiOS/RT
(`os/rt/src/chthreads.c`) and proofs about its lifecycle operations.

The thread control block (TCB) fields, state constants and the operations
are translated from `chthreads.c`.  Collaborators that live outside that
file (the scheduler entry points, the waiters list primitives, the timed
sleep primitive, and numeric header constants) are modelled from the
specification and are marked as such in their doc comments.
-/

namespace ChibiRT

/-- Thread lifecycle states (the CH_STATE_* constants used by chthreads.c):
AwaitingStart, Ready, Running, Suspended, timed sleep, waiting for an exit,
and the terminal Final state. -/
inductive ThreadState where
  | wtstart
  | ready
  | running
  | suspended
  | sleeping
  | wtexit
  | final
  deriving DecidableEq, Repr

/-- Modelled from the spec: CH_FLAG_MODE_STATIC, the "statically allocated"
mode bits value; the numeric constants live in a header that is not in src. -/
def CH_FLAG_MODE_STATIC : Nat := 0

/-- Modelled from the spec: mask of the allocation-mode bits of p_flags. -/
def CH_FLAG_MODE_MASK : Nat := 3

/-- Modelled from the spec: the termination-requested bit of p_flags, set by
chThdTerminate and polled cooperatively by the target thread. -/
def CH_FLAG_TERMINATE : Nat := 4

/-- Modelled from the spec: the highest legal priority; the numeric value
lives in a header that is not in src, only the bound prio <= HIGHPRIO is
used by the checks in chthreads.c. -/
def HIGHPRIO : Nat := 255

/-- Modelled from the spec: the "OK" wakeup message used by
chThdCreateStatic when it wakes the freshly created thread. -/
def RDY_OK : Int := 0

/-- Modelled from the spec: THD_WA_SIZE(0), the minimum working-area size
able to host the TCB plus a minimal stack; the macro lives in a header that
is not in src, only the bound size >= THD_WA_SIZE(0) is used. -/
def THD_WA_SIZE0 : Nat := 64

/-- Thread control block, the fields of thread_t that chthreads.c reads or
writes.  p_u models the union holding rdymsg and exitcode (one storage
slot); p_msg is the distinct message-subsystem slot that chThreadSuspendS
reads.  wakeTime models the timer deadline registered by a timed sleep
(the timer collaborator is external). -/
structure Thread where
  p_state : ThreadState
  p_prio : Nat
  p_realprio : Nat
  p_flags : Nat
  p_waiting : List Nat
  p_u : Int
  p_msg : Int
  wakeTime : Option Int
  deriving DecidableEq, Repr

/-- Kernel state visible to chthreads.c: the TCBs (indexed by thread id),
the current thread, the Scheduler-owned ready queue (modelled from the
spec as the list of enqueue_ready calls, in order), a counter of
reschedule checks, the system time, and a fault flag recording a NULL
dereference. -/
structure Kernel where
  threads : Nat → Thread
  curr : Nat
  readyQueue : List Nat
  reschedCount : Nat
  now : Int
  fault : Bool

/-- Pointwise update of one TCB in the kernel state. -/
def updT (k : Kernel) (i : Nat) (t : Thread) : Kernel :=
  { k with threads := fun j => if j = i then t else k.threads j }

/-- Modelled from the spec: the Scheduler collaborator enqueue_ready
(chSchReadyI): makes the thread Ready and enqueues it in the ready queue. -/
def chSchReadyI (i : Nat) (k : Kernel) : Kernel :=
  let k1 := updT k i { k.threads i with p_state := ThreadState.ready }
  { k1 with readyQueue := k1.readyQueue ++ [i] }

/-- Modelled from the spec: the Scheduler collaborator reschedule_if_needed
(chSchRescheduleS); the pick-next policy is an opaque oracle, so the model
records only that a reschedule check was performed. -/
def chSchRescheduleS (k : Kernel) : Kernel :=
  { k with reschedCount := k.reschedCount + 1 }

/-- Modelled from the spec: the Scheduler collaborator
dequeue_and_switch_to_final_sleep_state (chSchGoSleepS): moves the current
thread into the given blocked state; the context switch to the next thread
is out of scope. -/
def chSchGoSleepS (s : ThreadState) (k : Kernel) : Kernel :=
  updT k k.curr { k.threads k.curr with p_state := s }

/-- Modelled from the spec: chSchWakeupS delivers the message as the wakeup
reason, makes the thread Ready and performs a reschedule check.  The C
function dereferences its thread pointer, so a NULL argument is a fault:
the model sets the fault flag and wakes nothing. -/
def chSchWakeupS (otp : Option Nat) (msg : Int) (k : Kernel) : Kernel :=
  match otp with
  | none => { k with fault := true }
  | some i =>
      let k1 := updT k i { k.threads i with p_u := msg }
      chSchRescheduleS (chSchReadyI i k1)

/-- Translation of _thread_init: sets p_prio, p_state := CH_STATE_WTSTART,
p_flags := CH_FLAG_MODE_STATIC, p_realprio (mutexes enabled) and an empty
p_waiting list (waitexit enabled); the optional-subsystem fields and debug
hooks are out of scope. -/
def thread_init (t : Thread) (prio : Nat) : Thread :=
  { t with
    p_prio := prio
    p_state := ThreadState.wtstart
    p_flags := CH_FLAG_MODE_STATIC
    p_realprio := prio
    p_waiting := [] }

/-- Validity of creation arguments, the chDbgCheck of chThdCreateI:
non-null working area, size at least THD_WA_SIZE(0), legal priority,
non-null thread function. -/
def validCreate (wspNonNull : Bool) (size : Nat) (prio : Nat)
    (pfNonNull : Bool) : Prop :=
  wspNonNull = true ∧ THD_WA_SIZE0 ≤ size ∧ prio ≤ HIGHPRIO ∧ pfNonNull = true

/-- Translation of chThdCreateI: lays the TCB out in the working area
(modelled as the fresh thread id tid) and initializes it via _thread_init;
SETUP_CONTEXT is context-switch mechanics, out of scope. -/
def chThdCreateI (tid : Nat) (prio : Nat) (k : Kernel) : Kernel :=
  updT k tid (thread_init (k.threads tid) prio)

/-- Translation of chThdCreateStatic: inside the lock it calls
chSchWakeupS(chThdCreateI(wsp, size, prio, pf, arg), RDY_OK), i.e. it
creates the thread and immediately wakes it. -/
def chThdCreateStatic (tid : Nat) (prio : Nat) (k : Kernel) : Kernel :=
  chSchWakeupS (some tid) RDY_OK (chThdCreateI tid prio k)

/-- Modelled from the spec: chThdStartI is declared in a header that is not
in src; start transitions AwaitingStart to Ready and hands the TCB to the
Scheduler ready queue. -/
def chThdStartI (tid : Nat) (k : Kernel) : Kernel :=
  chSchReadyI tid k

/-- Translation of chThdStart: lock, chThdStartI, unlock. -/
def chThdStart (tid : Nat) (k : Kernel) : Kernel :=
  chThdStartI tid k

/-- Translation of chThdSetPriority with CH_CFG_USE_MUTEXES: saves
oldprio := p_realprio, assigns p_prio := newprio when the thread is not
boosted (p_prio = p_realprio) or newprio is above the current effective
priority, always assigns p_realprio := newprio, then reschedules; returns
the old real priority. -/
def chThdSetPriority (newprio : Nat) (k : Kernel) : Nat × Kernel :=
  let t := k.threads k.curr
  let oldprio := t.p_realprio
  let t1 := if t.p_prio = t.p_realprio ∨ t.p_prio < newprio then
              { t with p_prio := newprio }
            else t
  let t2 := { t1 with p_realprio := newprio }
  (oldprio, chSchRescheduleS (updT k k.curr t2))

/-- Translation of the state-changing part of chThreadSuspendS: stores the
current thread into the reference cell (the chDbgAssert that the cell is
NULL is a compiled-out check) and goes to sleep in CH_STATE_SUSPENDED.
The value the call returns once resumed is read separately by
chThreadSuspendS_ret, since the thread blocks in between. -/
def chThreadSuspendS_enter (k : Kernel) : Option Nat × Kernel :=
  (some k.curr, chSchGoSleepS ThreadState.suspended k)

/-- Translation of the return expression of chThreadSuspendS: the resumed
thread returns chThdGetSelfX()->p_msg, the message-subsystem slot. -/
def chThreadSuspendS_ret (tid : Nat) (k : Kernel) : Int :=
  (k.threads tid).p_msg

/-- Translation of chThreadResumeI: when the cell is non-empty, writes the
message into the referenced TCB (p_u.rdymsg), readies it via chSchReadyI
and clears the cell; when the cell is empty, does nothing. -/
def chThreadResumeI (cell : Option Nat) (msg : Int) (k : Kernel) :
    Option Nat × Kernel :=
  match cell with
  | none => (none, k)
  | some i =>
      let k1 := updT k i { k.threads i with p_u := msg }
      (none, chSchReadyI i k1)

/-- Translation of chThreadResumeS: when the cell is non-empty the source
first clears the cell (*trp = NULL) and then calls chSchWakeupS(*trp, msg)
on the already-cleared cell, i.e. on NULL. -/
def chThreadResumeS (cell : Option Nat) (msg : Int) (k : Kernel) :
    Option Nat × Kernel :=
  match cell with
  | none => (none, k)
  | some _ =>
      let cell1 : Option Nat := none
      (cell1, chSchWakeupS cell1 msg k)

/-- Translation of chThreadResume: lock, chThreadResumeS, unlock. -/
def chThreadResume (cell : Option Nat) (msg : Int) (k : Kernel) :
    Option Nat × Kernel :=
  chThreadResumeS cell msg k

/-- Translation of chThdTerminate: sets the CH_FLAG_TERMINATE bit in the
target TCB flags inside the lock. -/
def chThdTerminate (tid : Nat) (k : Kernel) : Kernel :=
  updT k tid
    { k.threads tid with
      p_flags := (k.threads tid).p_flags ||| CH_FLAG_TERMINATE }

/-- Modelled from the spec: chThdSleepS is a header inline that is not in
src; sleep(duration) blocks the caller as SleepingTimed with the deadline
now + duration registered with the timer collaborator. -/
def chThdSleepS (time : Int) (k : Kernel) : Kernel :=
  updT k k.curr
    { k.threads k.curr with
      p_state := ThreadState.sleeping
      wakeTime := some (k.now + time) }

/-- Translation of chThdSleep: lock, chThdSleepS, unlock. -/
def chThdSleep (time : Int) (k : Kernel) : Kernel :=
  chThdSleepS time k

/-- Modelled from the spec: chVTGetSystemTimeX returns the current system
time; the time type is not in src and the spec computes a possibly
non-positive difference from it, so times are modelled as integers. -/
def chVTGetSystemTimeX (k : Kernel) : Int :=
  k.now

/-- Translation of chThdSleepUntil: computes time - chVTGetSystemTimeX()
and sleeps for that duration only when it is strictly positive. -/
def chThdSleepUntil (time : Int) (k : Kernel) : Kernel :=
  if 0 < time - chVTGetSystemTimeX k then
    chThdSleepS (time - chVTGetSystemTimeX k) k
  else k

/-- Modelled from the spec: the chSchReadyI(list_remove(...)) loop of
chThdExitS drains the waiters list head first; list_insert and list_remove
are not in src and the spec fixes FIFO arrival order, so the head of
p_waiting is the earliest waiter. -/
def readyAll (ws : List Nat) (k : Kernel) : Kernel :=
  match ws with
  | [] => k
  | w :: rest => readyAll rest (chSchReadyI w k)

/-- Translation of chThdExitS: stores the exit code into p_u.exitcode,
readies every waiter in p_waiting (draining the list), and goes to sleep
in CH_STATE_FINAL, never returning; the exit hook and the registry removal
are out-of-scope no-ops. -/
def chThdExitS (msg : Int) (k : Kernel) : Kernel :=
  let tp := k.curr
  let k1 := updT k tp { k.threads tp with p_u := msg }
  let k2 := readyAll ((k.threads tp).p_waiting) k1
  let k3 := updT k2 tp { k2.threads tp with p_waiting := [] }
  chSchGoSleepS ThreadState.final k3

/-- Translation of chThdExit: lock, chThdExitS; the call never returns. -/
def chThdExit (msg : Int) (k : Kernel) : Kernel :=
  chThdExitS msg k

/-- Translation of the state-changing part of chThdWait: when the target is
not in CH_STATE_FINAL the caller inserts itself into the target waiters
list (FIFO arrival order, modelled from the spec: list_insert is not in
src) and blocks in CH_STATE_WTEXIT; when the target is Final nothing
changes.  The exit code is read afterwards by chThdWait_ret. -/
def chThdWait_enter (tp : Nat) (k : Kernel) : Kernel :=
  if (k.threads tp).p_state ≠ ThreadState.final then
    let k1 := updT k tp
      { k.threads tp with p_waiting := (k.threads tp).p_waiting ++ [k.curr] }
    chSchGoSleepS ThreadState.wtexit k1
  else k

/-- Translation of the read msg = tp->p_u.exitcode performed by chThdWait
once the target is terminal. -/
def chThdWait_ret (tp : Nat) (k : Kernel) : Int :=
  (k.threads tp).p_u

/-! Concrete kernel states used to exercise the operations. -/

/-- Concrete TCB: a running thread of priority 5 with empty waiters list. -/
def thd0 : Thread :=
  { p_state := ThreadState.running
    p_prio := 5
    p_realprio := 5
    p_flags := CH_FLAG_MODE_STATIC
    p_waiting := []
    p_u := 0
    p_msg := 0
    wakeTime := none }

/-- Concrete kernel: every TCB is thd0, thread 0 is current, empty ready
queue, system time 100. -/
def kBase : Kernel :=
  { threads := fun _ => thd0
    curr := 0
    readyQueue := []
    reschedCount := 0
    now := 100
    fault := false }

/-- Concrete kernel: like kBase but thread 1 is Suspended. -/
def kSusp : Kernel :=
  { kBase with
    threads := fun i =>
      if i = 1 then { thd0 with p_state := ThreadState.suspended } else thd0 }

/-- Concrete kernel: like kBase but thread 1 is Final with exit code 42. -/
def kFinal : Kernel :=
  { kBase with
    threads := fun i =>
      if i = 1 then
        { thd0 with p_state := ThreadState.final, p_u := 42 }
      else thd0 }

/-- Concrete kernel: thread 0 is current and exiting while threads 2 and 3
wait on it in CH_STATE_WTEXIT, thread 2 having arrived first. -/
def kExit : Kernel :=
  { kBase with
    threads := fun i =>
      if i = 0 then { thd0 with p_waiting := [2, 3] }
      else if i = 2 ∨ i = 3 then { thd0 with p_state := ThreadState.wtexit }
      else thd0 }

/-! Helper lemmas about the state updates. -/

theorem updT_threads_same (k : Kernel) (i : Nat) (t : Thread) :
    (updT k i t).threads i = t := by
  simp [updT]

theorem updT_threads_other (k : Kernel) (i : Nat) (t : Thread) (j : Nat)
    (h : j ≠ i) : (updT k i t).threads j = k.threads j := by
  simp [updT, h]

theorem updT_curr (k : Kernel) (i : Nat) (t : Thread) :
    (updT k i t).curr = k.curr := by
  simp [updT]

theorem updT_readyQueue (k : Kernel) (i : Nat) (t : Thread) :
    (updT k i t).readyQueue = k.readyQueue := by
  simp [updT]

theorem readyAll_curr (ws : List Nat) (k : Kernel) :
    (readyAll ws k).curr = k.curr := by
  induction ws generalizing k with
  | nil => rfl
  | cons w rest ih => simp [readyAll, ih, chSchReadyI, updT]

theorem readyAll_readyQueue (ws : List Nat) (k : Kernel) :
    (readyAll ws k).readyQueue = k.readyQueue ++ ws := by
  induction ws generalizing k with
  | nil => simp [readyAll]
  | cons w rest ih => simp [readyAll, ih, chSchReadyI, updT]

theorem readyAll_threads_notmem (ws : List Nat) (k : Kernel) (j : Nat)
    (h : j ∉ ws) : (readyAll ws k).threads j = k.threads j := by
  induction ws generalizing k with
  | nil => rfl
  | cons w rest ih =>
      have hj : j ≠ w := fun he => h (he ▸ List.mem_cons_self w rest)
      have hr : j ∉ rest := fun hm => h (List.mem_cons_of_mem w hm)
      rw [readyAll, ih _ hr]
      simp [chSchReadyI, updT, hj]

theorem readyAll_threads_mem (ws : List Nat) (k : Kernel) (w : Nat)
    (h : w ∈ ws) : ((readyAll ws k).threads w).p_state = ThreadState.ready := by
  induction ws generalizing k with
  | nil => exact absurd h (List.not_mem_nil w)
  | cons a rest ih =>
      by_cases hr : w ∈ rest
      · rw [readyAll]
        exact ih _ hr
      · have ha : w = a := by
          rcases List.mem_cons.mp h with h1 | h1
          · exact h1
          · exact absurd h1 hr
        rw [readyAll, readyAll_threads_notmem rest _ _ hr, ha]
        simp [chSchReadyI, updT]

/-! Claim theorems. -/

/-- C9: for every empty cell, the interrupt-context resume operation
chThreadResumeI is a no-op: the kernel state is returned unchanged (no
thread state, payload slot or ready-queue change, no fault) and the cell
stays empty. -/
theorem c9_resumeI_empty_cell_noop (msg : Int) (k : Kernel) :
    chThreadResumeI none msg k = (none, k) :=
  rfl

/-- C8: chThdTerminate only ORs the CH_FLAG_TERMINATE bit into the target
TCB flags; the target state, effective priority, base priority, waiters
list and payload slot are unchanged, every other TCB is untouched, and the
ready queue and current thread are unchanged. -/
theorem c8_terminate_frame (k : Kernel) (tid : Nat) :
    (chThdTerminate tid k).threads tid =
      { k.threads tid with
        p_flags := (k.threads tid).p_flags ||| CH_FLAG_TERMINATE } ∧
    ((chThdTerminate tid k).threads tid).p_state = (k.threads tid).p_state ∧
    ((chThdTerminate tid k).threads tid).p_prio = (k.threads tid).p_prio ∧
    ((chThdTerminate tid k).threads tid).p_realprio =
      (k.threads tid).p_realprio ∧
    ((chThdTerminate tid k).threads tid).p_waiting =
      (k.threads tid).p_waiting ∧
    ((chThdTerminate tid k).threads tid).p_u = (k.threads tid).p_u ∧
    (∀ j, j ≠ tid → (chThdTerminate tid k).threads j = k.threads j) ∧
    (chThdTerminate tid k).readyQueue = k.readyQueue ∧
    (chThdTerminate tid k).curr = k.curr := by
  refine ⟨?_, ?_, ?_, ?_, ?_, ?_, ?_, ?_, ?_⟩
  · exact updT_threads_same k tid _
  all_goals
    simp [chThdTerminate, updT]
  intro j hj
  simp [hj]

/-- C10: when the target thread is already Final, chThdWait returns its
exit code immediately: the kernel state is unchanged, so the caller is
never enqueued in the target waiters list and never enters
CH_STATE_WTEXIT. -/
theorem c10_wait_on_final_immediate (k : Kernel) (tp : Nat)
    (h : (k.threads tp).p_state = ThreadState.final) :
    chThdWait_enter tp k = k ∧
    chThdWait_ret tp (chThdWait_enter tp k) = (k.threads tp).p_u ∧
    ((chThdWait_enter tp k).threads tp).p_waiting =
      (k.threads tp).p_waiting ∧
    ((chThdWait_enter tp k).threads k.curr).p_state =
      (k.threads k.curr).p_state := by
  have he : chThdWait_enter tp k = k := by
    simp [chThdWait_enter, h]
  exact ⟨he, by rw [he, chThdWait_ret], by rw [he], by rw [he]⟩

/-- Witness for C10: in kFinal, thread 1 is Final with exit code 42 and
chThdWait on it changes nothing and returns 42. -/
theorem c10_wait_on_final_immediate_witness :
    (kFinal.threads 1).p_state = ThreadState.final ∧
    (chThdWait_enter 1 kFinal = kFinal ∧
     chThdWait_ret 1 (chThdWait_enter 1 kFinal) = (kFinal.threads 1).p_u ∧
     ((chThdWait_enter 1 kFinal).threads 1).p_waiting =
       (kFinal.threads 1).p_waiting ∧
     ((chThdWait_enter 1 kFinal).threads kFinal.curr).p_state =
       (kFinal.threads kFinal.curr).p_state) :=
  ⟨rfl, c10_wait_on_final_immediate kFinal 1 rfl⟩

/-- C4: chThdSleepUntil with a deadline at or before the current system
time returns with the kernel state unchanged (the caller never becomes
SleepingTimed); with a strictly future deadline it behaves as
chThdSleepS for exactly time - now ticks, leaving the caller
SleepingTimed with wakeup deadline exactly the requested time. -/
theorem c4_sleep_until (k : Kernel) (t : Int) :
    (t ≤ k.now → chThdSleepUntil t k = k) ∧
    (k.now < t →
      chThdSleepUntil t k = chThdSleepS (t - k.now) k ∧
      ((chThdSleepUntil t k).threads k.curr).p_state =
        ThreadState.sleeping ∧
      ((chThdSleepUntil t k).threads k.curr).wakeTime = some t) := by
  constructor
  · intro h
    have hn : ¬0 < t - chVTGetSystemTimeX k := by
      simp [chVTGetSystemTimeX]
      omega
    simp [chThdSleepUntil, hn]
  · intro h
    have hp : 0 < t - chVTGetSystemTimeX k := by
      simp [chVTGetSystemTimeX]
      omega
    have he : chThdSleepUntil t k = chThdSleepS (t - k.now) k := by
      unfold chThdSleepUntil
      rw [if_pos hp]
      rfl
    refine ⟨he, ?_, ?_⟩
    · rw [he]
      simp [chThdSleepS, updT]
    · rw [he]
      simp [chThdSleepS, updT]

/-- Witness for C4: in kBase (system time 100), sleeping until 50 changes
nothing, while sleeping until 150 leaves thread 0 SleepingTimed with
deadline 150. -/
theorem c4_sleep_until_witness :
    ((50 : Int) ≤ kBase.now ∧ chThdSleepUntil 50 kBase = kBase) ∧
    (kBase.now < (150 : Int) ∧
     ((chThdSleepUntil 150 kBase).threads kBase.curr).p_state =
       ThreadState.sleeping ∧
     ((chThdSleepUntil 150 kBase).threads kBase.curr).wakeTime =
       some 150) :=
  ⟨⟨by decide, (c4_sleep_until kBase 50).1 (by decide)⟩,
   ⟨by decide, ((c4_sleep_until kBase 150).2 (by decide)).2.1,
    ((c4_sleep_until kBase 150).2 (by decide)).2.2⟩⟩

/-- C5: for every legal new priority, chThdSetPriority returns the old
base priority p_realprio, always stores the new value into p_realprio,
stores it into the effective priority p_prio exactly when the thread is
not boosted (p_prio = p_realprio) or the new priority is strictly above
the current effective priority, and performs a reschedule check. -/
theorem c5_set_priority (k : Kernel) (newprio : Nat)
    (h : newprio ≤ HIGHPRIO) :
    (chThdSetPriority newprio k).1 = (k.threads k.curr).p_realprio ∧
    ((chThdSetPriority newprio k).2.threads k.curr).p_realprio = newprio ∧
    ((chThdSetPriority newprio k).2.threads k.curr).p_prio =
      (if (k.threads k.curr).p_prio = (k.threads k.curr).p_realprio ∨
          (k.threads k.curr).p_prio < newprio
       then newprio else (k.threads k.curr).p_prio) ∧
    (chThdSetPriority newprio k).2.reschedCount = k.reschedCount + 1 := by
  refine ⟨rfl, ?_, ?_, rfl⟩
  · simp [chThdSetPriority, chSchRescheduleS, updT]
  · by_cases hc : (k.threads k.curr).p_prio = (k.threads k.curr).p_realprio ∨
        (k.threads k.curr).p_prio < newprio <;>
      simp [chThdSetPriority, chSchRescheduleS, updT, hc]

/-- Witness for C5: in kBase the current thread has effective and base
priority 5, so setting priority 7 returns 5, stores 7 in both slots and
counts one reschedule check. -/
theorem c5_set_priority_witness :
    (7 ≤ HIGHPRIO) ∧
    ((chThdSetPriority 7 kBase).1 = (kBase.threads kBase.curr).p_realprio ∧
     ((chThdSetPriority 7 kBase).2.threads kBase.curr).p_realprio = 7 ∧
     ((chThdSetPriority 7 kBase).2.threads kBase.curr).p_prio =
       (if (kBase.threads kBase.curr).p_prio =
             (kBase.threads kBase.curr).p_realprio ∨
           (kBase.threads kBase.curr).p_prio < 7
        then 7 else (kBase.threads kBase.curr).p_prio) ∧
     (chThdSetPriority 7 kBase).2.reschedCount = kBase.reschedCount + 1) :=
  ⟨by decide, c5_set_priority kBase 7 (by decide)⟩

/-- C1: evaluation of the thread-context resume at a cell holding a
reference to the Suspended thread 1.  The source clears the cell before
reading it, so chSchWakeupS is invoked on NULL: thread 1 stays Suspended,
its payload slot keeps its old value 0 instead of the message 7, nothing
is enqueued and a NULL-dereference fault occurs, while the
interrupt-context variant on the same state correctly readies thread 1
with payload 7.  This contradicts the claimed behaviour of
chThreadResume / chThreadResumeS. -/
theorem c1_resumeS_wakes_null :
    ((chThreadResume (some 1) 7 kSusp).2.threads 1).p_state =
      ThreadState.suspended ∧
    ((chThreadResume (some 1) 7 kSusp).2.threads 1).p_u = 0 ∧
    (chThreadResume (some 1) 7 kSusp).2.readyQueue = [] ∧
    (chThreadResume (some 1) 7 kSusp).2.fault = true ∧
    (chThreadResume (some 1) 7 kSusp).1 = none ∧
    ((chThreadResumeI (some 1) 7 kSusp).2.threads 1).p_state =
      ThreadState.ready ∧
    ((chThreadResumeI (some 1) 7 kSusp).2.threads 1).p_u = 7 ∧
    (chThreadResumeI (some 1) 7 kSusp).2.readyQueue = [1] := by
  decide

/-- C2 counterexample: chThdCreateStatic, the public creation operation,
wakes the thread it creates: at kBase the freshly created thread 1 is not
in AwaitingStart and is already enqueued in the ready queue although
chThdStart was never called. -/
theorem c2_create_static_counterexample :
    ((chThdCreateStatic 1 5 kBase).threads 1).p_state ≠
      ThreadState.wtstart ∧
    1 ∈ (chThdCreateStatic 1 5 kBase).readyQueue := by
  decide

/-- C2 amended: for every valid creation, chThdCreateI leaves the new
thread in AwaitingStart and does not touch the ready queue, and
chThdStartI then makes it Ready and enqueues it; the public
chThdCreateStatic, however, itself wakes the created thread with RDY_OK,
leaving it Ready and enqueued with no start call. -/
theorem c2_create_amended (k : Kernel) (tid prio size : Nat)
    (wsp pf : Bool) (h : validCreate wsp size prio pf) :
    ((chThdCreateI tid prio k).threads tid).p_state =
      ThreadState.wtstart ∧
    (chThdCreateI tid prio k).readyQueue = k.readyQueue ∧
    ((chThdStartI tid (chThdCreateI tid prio k)).threads tid).p_state =
      ThreadState.ready ∧
    (chThdStartI tid (chThdCreateI tid prio k)).readyQueue =
      k.readyQueue ++ [tid] ∧
    ((chThdCreateStatic tid prio k).threads tid).p_state =
      ThreadState.ready ∧
    (chThdCreateStatic tid prio k).readyQueue = k.readyQueue ++ [tid] ∧
    ((chThdCreateStatic tid prio k).threads tid).p_u = RDY_OK := by
  refine ⟨?_, ?_, ?_, ?_, ?_, ?_, ?_⟩ <;>
    simp [chThdCreateI, chThdCreateStatic, chThdStartI, chSchReadyI,
          chSchWakeupS, chSchRescheduleS, thread_init, updT]

/-- Witness for C2 amended: concrete valid creation of thread 1 with
priority 5 in kBase. -/
theorem c2_create_amended_witness :
    validCreate true 64 5 true ∧
    (((chThdCreateI 1 5 kBase).threads 1).p_state =
       ThreadState.wtstart ∧
     (chThdCreateI 1 5 kBase).readyQueue = kBase.readyQueue ∧
     ((chThdStartI 1 (chThdCreateI 1 5 kBase)).threads 1).p_state =
       ThreadState.ready ∧
     (chThdStartI 1 (chThdCreateI 1 5 kBase)).readyQueue =
       kBase.readyQueue ++ [1] ∧
     ((chThdCreateStatic 1 5 kBase).threads 1).p_state =
       ThreadState.ready ∧
     (chThdCreateStatic 1 5 kBase).readyQueue = kBase.readyQueue ++ [1] ∧
     ((chThdCreateStatic 1 5 kBase).threads 1).p_u = RDY_OK) :=
  ⟨⟨rfl, by decide, by decide, rfl⟩,
   c2_create_amended kBase 1 5 64 true true
     ⟨rfl, by decide, by decide, rfl⟩⟩

/-- C7: evaluation of the suspend/resume round trip in kBase.  Thread 0
suspends on an empty cell (the cell then references it and it is
Suspended); a single chThreadResumeI with payload 7 readies it, clears
the cell and stores 7 into the wakeup slot p_u.rdymsg — but the value the
resumed chThreadSuspendS call returns is read from the distinct
message-subsystem slot p_msg, still 0, so the delivered payload is not
observed unchanged on the suspending side. -/
theorem c7_suspend_resume_payload_mismatch :
    (chThreadSuspendS_enter kBase).1 = some 0 ∧
    ((chThreadSuspendS_enter kBase).2.threads 0).p_state =
      ThreadState.suspended ∧
    (chThreadResumeI (chThreadSuspendS_enter kBase).1 7
        (chThreadSuspendS_enter kBase).2).1 = none ∧
    ((chThreadResumeI (chThreadSuspendS_enter kBase).1 7
        (chThreadSuspendS_enter kBase).2).2.threads 0).p_state =
      ThreadState.ready ∧
    ((chThreadResumeI (chThreadSuspendS_enter kBase).1 7
        (chThreadSuspendS_enter kBase).2).2.threads 0).p_u = 7 ∧
    chThreadSuspendS_ret 0
      (chThreadResumeI (chThreadSuspendS_enter kBase).1 7
        (chThreadSuspendS_enter kBase).2).2 = 0 := by
  decide

/-- Helper: every waiter of the exiting thread ends the exit call in the
Ready state. -/
theorem exit_waiters_ready (k : Kernel) (msg : Int)
    (h : k.curr ∉ (k.threads k.curr).p_waiting) :
    ∀ w ∈ (k.threads k.curr).p_waiting,
      ((chThdExitS msg k).threads w).p_state = ThreadState.ready := by
  unfold chThdExitS
  intro w hw
  have hwc : w ≠ k.curr := fun he => h (he ▸ hw)
  simp only [chSchGoSleepS, updT_curr, readyAll_curr]
  rw [updT_threads_other _ _ _ _ hwc, updT_threads_other _ _ _ _ hwc]
  exact readyAll_threads_mem _ _ _ hw

/-- Helper: the exit call extends the ready queue by exactly the waiters
list, in list order. -/
theorem exit_readyQueue (k : Kernel) (msg : Int) :
    (chThdExitS msg k).readyQueue =
      k.readyQueue ++ (k.threads k.curr).p_waiting := by
  unfold chThdExitS
  simp [chSchGoSleepS, updT_readyQueue, readyAll_readyQueue, updT]

/-- C3: when the current thread exits, every thread in its waiters list is
made Ready during the exit call, and they are enqueued with the Scheduler
in FIFO arrival order: the ready queue is extended by exactly the waiters
list, earliest arrival first. -/
theorem c3_exit_wakes_waiters_fifo (k : Kernel) (msg : Int)
    (h : k.curr ∉ (k.threads k.curr).p_waiting) :
    (chThdExitS msg k).readyQueue =
      k.readyQueue ++ (k.threads k.curr).p_waiting ∧
    ∀ w ∈ (k.threads k.curr).p_waiting,
      ((chThdExitS msg k).threads w).p_state = ThreadState.ready :=
  ⟨exit_readyQueue k msg, exit_waiters_ready k msg h⟩

/-- Witness for C3: in kExit the exiting thread 0 has waiters [2, 3];
after the exit both are Ready and the ready queue is [2, 3], thread 2
(the earlier arrival) first. -/
theorem c3_exit_wakes_waiters_fifo_witness :
    (kExit.curr ∉ (kExit.threads kExit.curr).p_waiting) ∧
    ((chThdExitS 42 kExit).readyQueue =
       kExit.readyQueue ++ (kExit.threads kExit.curr).p_waiting ∧
     ∀ w ∈ (kExit.threads kExit.curr).p_waiting,
       ((chThdExitS 42 kExit).threads w).p_state = ThreadState.ready) :=
  ⟨by decide, c3_exit_wakes_waiters_fifo kExit 42 (by decide)⟩

/-- C6: when the current thread exits with a code, the code is stored in
the TCB union slot p_u.exitcode, the thread becomes Final with an emptied
waiters list (so each waiter is released exactly once), every waiter is
made Ready, and the read performed by each unblocked chThdWait call on
the terminal TCB yields exactly the exit code. -/
theorem c6_exit_code_to_waiters (k : Kernel) (msg : Int)
    (h : k.curr ∉ (k.threads k.curr).p_waiting) :
    ((chThdExitS msg k).threads k.curr).p_state = ThreadState.final ∧
    ((chThdExitS msg k).threads k.curr).p_u = msg ∧
    chThdWait_ret k.curr (chThdExitS msg k) = msg ∧
    ((chThdExitS msg k).threads k.curr).p_waiting = [] ∧
    ∀ w ∈ (k.threads k.curr).p_waiting,
      ((chThdExitS msg k).threads w).p_state = ThreadState.ready := by
  have hw :
      ∀ w ∈ (k.threads k.curr).p_waiting,
        ((chThdExitS msg k).threads w).p_state = ThreadState.ready :=
    exit_waiters_ready k msg h
  have hrec :
      (chThdExitS msg k).threads k.curr =
        { k.threads k.curr with
          p_state := ThreadState.final
          p_waiting := []
          p_u := msg } := by
    have hq :
        (readyAll ((k.threads k.curr).p_waiting)
            (updT k k.curr { k.threads k.curr with p_u := msg })).threads
            k.curr =
          { k.threads k.curr with p_u := msg } := by
      rw [readyAll_threads_notmem _ _ _ h, updT_threads_same]
    have hc :
        (readyAll ((k.threads k.curr).p_waiting)
            (updT k k.curr { k.threads k.curr with p_u := msg })).curr =
          k.curr := by
      rw [readyAll_curr, updT_curr]
    simp only [chThdExitS, chSchGoSleepS]
    rw [updT_curr, hc, updT_threads_same, updT_threads_same, hq]
  exact ⟨by rw [hrec], by rw [hrec], by rw [chThdWait_ret, hrec],
         by rw [hrec], hw⟩

/-- Witness for C6: in kExit the exiting thread 0 with code 42 becomes
Final holding exit code 42, its waiters list empties, both waiters become
Ready, and the chThdWait read on the terminal TCB yields 42. -/
theorem c6_exit_code_to_waiters_witness :
    (kExit.curr ∉ (kExit.threads kExit.curr).p_waiting) ∧
    (((chThdExitS 42 kExit).threads kExit.curr).p_state =
       ThreadState.final ∧
     ((chThdExitS 42 kExit).threads kExit.curr).p_u = 42 ∧
     chThdWait_ret kExit.curr (chThdExitS 42 kExit) = 42 ∧
     ((chThdExitS 42 kExit).threads kExit.curr).p_waiting = [] ∧
     ∀ w ∈ (kExit.threads kExit.curr).p_waiting,
       ((chThdExitS 42 kExit).threads w).p_state = ThreadState.ready) :=
  ⟨by decide, c6_exit_code_to_waiters kExit 42 (by decide)⟩

end ChibiRT
